import Mathlib

/-!
# Distributed query commands of the time-series module (`src/gears_commands.c`)

A shallow embedding of the three command dispatchers (`TSDB_mget_RG`,
`TSDB_mrange_RG`, `TSDB_queryindex_RG`) and the two completion handlers
(`mget_done`, `mrange_done`).

Every call the C code makes into Redis or into the execution engine is recorded,
in program order, as one `Effect` of a trace.  What those calls return (the
keyword lookup, the label parser, plan creation, the run) is an input of the
model: the fields of `Env` and `Engine`.

Loop counters are `int` in the source while the record count is `long long`; the
model takes the collected count to fit an `int`, as every record array the engine
can hand over does.
-/

namespace GearsCommands

/-! ## Data model -/

/-- A label-predicate list (`QueryPredicateList`): the fields the dispatchers read
(`count`, `ref`) and the predicates themselves, kept abstract. -/
structure QueryPredicateList where
  count : Nat
  ref : Nat
  list : List Nat
deriving DecidableEq

/-- The two predicate kinds the point lookup counts. -/
inductive PredicateType where
  | EQ
  | LIST_MATCH
deriving DecidableEq

/-- The argument bundle handed to the per-shard mapper (`QueryPredicates_Arg`). -/
structure QueryPredicates_Arg where
  count : Nat
  startTimestamp : Nat
  endTimestamp : Nat
  predicates : QueryPredicateList
  withLabels : Bool
deriving DecidableEq

/-- The aggregation part of the range arguments (`aggregationArgs`): the class
pointer (`none` is `NULL`) and the bucket width. -/
structure AggregationArgs where
  aggregationClass : Option Nat
  timeDelta : Int
deriving DecidableEq

/-- The parsed range-query arguments (`MRangeArgs`), with the field names of the
source (`gropuByReducerOp` included). -/
structure MRangeArgs where
  startTimestamp : Nat
  endTimestamp : Nat
  aggregationArgs : AggregationArgs
  withLabels : Bool
  count : Int
  queryPredicates : QueryPredicateList
  groupByLabel : Option String
  gropuByReducerOp : Nat
  reverse : Bool
deriving DecidableEq

/-- A reconstructed series: its key name and the rest of its contents, abstract. -/
structure Series where
  keyName : String
  body : Nat
deriving DecidableEq

/-- A collected record: its type tag and its contents, abstract. -/
structure Record where
  type : Nat
  payload : Nat
deriving DecidableEq

instance : Inhabited Record := ⟨⟨0, 0⟩⟩

/-- The private data of the range-query completion (`MRangeData`). -/
structure MRangeData where
  bc : Nat
  args : MRangeArgs
deriving DecidableEq

/-- The finished execution as the completion handlers see it: its handle and the
collected records. -/
structure ExecutionPlan where
  id : Nat
  records : List Record
deriving DecidableEq

/-- The connection a reply is written on: the one the command arrived on, or the
thread-safe context a completion handler obtains from the blocked client. -/
inductive Ctx where
  | original
  | threadSafe (bc : Nat)
deriving DecidableEq

/-- The completion handlers a dispatcher can register. -/
inductive DoneCallback where
  | mget_done
  | mrange_done
deriving DecidableEq

/-- The private data registered with a completion handler. -/
inductive PrivateData where
  | blockedClient (bc : Nat)
  | mrangeData (data : MRangeData)
deriving DecidableEq

/-- One call into Redis, the engine or the module's helpers, with its arguments. -/
inductive Effect where
  | WrongArity (ctx : Ctx)
  | ReplyGeneralError (ctx : Ctx) (msg : String)
  | ReplyWithError (ctx : Ctx) (err : Option String)
  | QueryPredicateList_Free (queries : QueryPredicateList)
  | CreateCtx (reader : String)
  | RefIncr (queries : QueryPredicateList)
  | FlatMap (rg_ctx : Option Nat) (mapper : String) (arg : QueryPredicates_Arg)
  | Collect (rg_ctx : Option Nat)
  | RunAsync (rg_ctx : Option Nat)
  | FreeFlatExecution (rg_ctx : Option Nat)
  | BlockClient (ctx : Ctx)
  | AddOnDoneCallback (ep : Nat) (cb : DoneCallback) (pd : PrivateData)
  | GetThreadSafeContext (bc : Nat)
  | ReplyWithArray (ctx : Ctx) (len : Int)
  | RecordSendReply (r : Record) (ctx : Ctx)
  | UnblockClient (bc : Nat)
  | DropExecution (ep : Nat)
  | FreeThreadSafeContext (ctx : Ctx)
  | ResultSet_Create
  | ResultSet_GroupbyLabel (label : String)
  | ResultSet_AddSerie (s : Series) (name : String)
  | ReplySeriesArrayPos (ctx : Ctx) (s : Series) (withLabels : Bool)
      (startTimestamp endTimestamp : Nat) (aggregationClass : Option Nat)
      (timeDelta : Int) (count : Int) (rev : Bool)
  | ResultSet_ApplyReducer (startTimestamp endTimestamp : Nat)
      (aggregationClass : Option Nat) (timeDelta : Int) (maxResults : Int) (rev : Bool)
      (reducerOp : Nat)
  | replyResultSet (ctx : Ctx) (withLabels : Bool) (startTimestamp endTimestamp : Nat)
      (aggregationClass : Option Nat) (timeDelta : Int) (count : Int) (rev : Bool)
  | ResultSet_Free
  | FreeSeries (slot : Option Series)
  | free_tempSeries
  | MRangeArgs_Free (args : MRangeArgs)
  | free_data
deriving DecidableEq

/-- What the label parser hands back: the list and the response code. -/
structure ParseResult where
  queries : QueryPredicateList
  response : Int
deriving DecidableEq

/-- The helpers of the module and of its libraries that the commands call and
that are defined elsewhere; each is an input of the model.  The label parser is
taken to report a failure through its response code alone: the dispatcher writes
the error reply for it. -/
structure Env where
  /-- Keyword lookup `RMUtil_ArgIndex(keyword, argv, argc)`. -/
  RMUtil_ArgIndex : String → List String → Int
  /-- Label parser `parseLabelListFromArgs(ctx, argv, start, query_count, &response)`. -/
  parseLabelListFromArgs : List String → Int → Int → ParseResult
  /-- The response code `TSDB_ERROR`. -/
  TSDB_ERROR : Int
  /-- Counter `CountPredicateType(queries, type)`. -/
  CountPredicateType : QueryPredicateList → PredicateType → Nat
  /-- Range parser `parseMRangeCommand(ctx, argv, argc, &args)`: the arguments when it returns
  `REDISMODULE_OK`, `none` otherwise. -/
  parseMRangeCommand : List String → Option MRangeArgs
  /-- Series tag `GetSeriesRecordType()`. -/
  GetSeriesRecordType : Nat
  /-- Conversion `SeriesRecord_IntoSeries(record)`. -/
  SeriesRecord_IntoSeries : Record → Series

/-- The outcome of the engine and Redis calls of one dispatch. -/
structure Engine where
  /-- The plan pointer `RedisGears_CreateCtx` returns (`none` is `NULL`). -/
  rg_ctx : Option Nat
  /-- The error `RedisGears_CreateCtx` stores in `err` (`none`: left `NULL`). -/
  CreateCtx_err : Option String
  /-- The handle `RGM_Run` returns (`none` is `NULL`). -/
  Run_ep : Option Nat
  /-- The error `RGM_Run` stores in `err` (`none`: `err` left as it was). -/
  Run_err : Option String
  /-- The blocked-client handle `RedisModule_BlockClient` returns. -/
  bc : Nat

/-- The value a dispatcher returns: `REDISMODULE_OK`, or whatever the reply helper
it returns through gives back. -/
inductive Ret where
  | REDISMODULE_OK
  | ofWrongArity
  | ofReplyGeneralError
deriving DecidableEq

/-! ## Completion handlers -/

/-- Number of collected records (`RedisGears_GetRecordsLen`). -/
def RedisGears_GetRecordsLen (gearsCtx : ExecutionPlan) : Nat :=
  gearsCtx.records.length

/-- The collected record at an index (`RedisGears_GetRecord`). -/
def RedisGears_GetRecord (gearsCtx : ExecutionPlan) (i : Nat) : Record :=
  gearsCtx.records.getD i default

/-- The pass-through completion handler (`mget_done`, lines 13-27). -/
def mget_done (gearsCtx : ExecutionPlan) (bc : Nat) : List Effect :=
  let rctx := Ctx.threadSafe bc
  let tr := [Effect.GetThreadSafeContext bc]
  let len := RedisGears_GetRecordsLen gearsCtx
  let tr := tr ++ [Effect.ReplyWithArray rctx len]
  let tr := (List.range len).foldl
    (fun tr i => tr ++ [Effect.RecordSendReply (RedisGears_GetRecord gearsCtx i) rctx]) tr
  tr ++ [Effect.UnblockClient bc, Effect.DropExecution gearsCtx.id,
         Effect.FreeThreadSafeContext rctx]

/-- The state the loop of `mrange_done` updates: the `tempSeries` array and the
trace so far. -/
structure MRangeLoopState where
  tempSeries : List (Option Series)
  trace : List Effect
deriving DecidableEq

/-- One iteration of the first loop of `mrange_done` (lines 46-67). -/
def mrange_loop_body (env : Env) (gearsCtx : ExecutionPlan) (data : MRangeData)
    (st : MRangeLoopState) (i : Nat) : MRangeLoopState :=
  let rctx := Ctx.threadSafe data.bc
  let raw_record := RedisGears_GetRecord gearsCtx i
  if raw_record.type ≠ env.GetSeriesRecordType then st
  else
    let s := env.SeriesRecord_IntoSeries raw_record
    let tempSeries := st.tempSeries.set i (some s)
    if data.args.groupByLabel.isSome then
      { tempSeries := tempSeries,
        trace := st.trace ++ [Effect.ResultSet_AddSerie s s.keyName] }
    else
      { tempSeries := tempSeries,
        trace := st.trace ++ [Effect.ReplySeriesArrayPos rctx s data.args.withLabels
          data.args.startTimestamp data.args.endTimestamp
          data.args.aggregationArgs.aggregationClass data.args.aggregationArgs.timeDelta
          data.args.count data.args.reverse] }

/-- The merging completion handler (`mrange_done`, lines 29-102). -/
def mrange_done (env : Env) (gearsCtx : ExecutionPlan) (data : MRangeData) : List Effect :=
  let bc := data.bc
  let rctx := Ctx.threadSafe bc
  let tr := [Effect.GetThreadSafeContext bc]
  let len := RedisGears_GetRecordsLen gearsCtx
  let tr :=
    match data.args.groupByLabel with
    | some label => tr ++ [Effect.ResultSet_Create, Effect.ResultSet_GroupbyLabel label]
    | none => tr ++ [Effect.ReplyWithArray rctx len]
  -- calloc: every slot starts out NULL
  let st : MRangeLoopState := { tempSeries := List.replicate len none, trace := tr }
  let st := (List.range len).foldl (mrange_loop_body env gearsCtx data) st
  let tempSeries := st.tempSeries
  let tr := st.trace
  let tr :=
    if data.args.groupByLabel.isSome then
      tr ++ [Effect.ResultSet_ApplyReducer data.args.startTimestamp data.args.endTimestamp
               data.args.aggregationArgs.aggregationClass data.args.aggregationArgs.timeDelta
               (-1) false data.args.gropuByReducerOp,
             Effect.replyResultSet rctx data.args.withLabels data.args.startTimestamp
               data.args.endTimestamp none 0 data.args.count data.args.reverse,
             Effect.ResultSet_Free]
    else tr
  let tr := tr ++ [Effect.UnblockClient bc]
  let tr := (List.range len).foldl
    (fun tr i => tr ++ [Effect.FreeSeries (tempSeries.getD i none)]) tr
  tr ++ [Effect.free_tempSeries, Effect.MRangeArgs_Free data.args, Effect.free_data,
         Effect.DropExecution gearsCtx.id, Effect.FreeThreadSafeContext rctx]

/-! ## Dispatchers -/

/-- The value of `err` after `RGM_Run`: what the run stored, else what it held. -/
def errAfterRun (eng : Engine) : Option String :=
  match eng.Run_err with
  | some e => some e
  | none => eng.CreateCtx_err

/-- The point-lookup dispatcher (`TSDB_mget_RG`, lines 104-155). -/
def TSDB_mget_RG (env : Env) (eng : Engine) (argv : List String) : Ret × List Effect :=
  let ctx := Ctx.original
  let argc : Int := argv.length
  if argc < 3 then (Ret.ofWrongArity, [Effect.WrongArity ctx])
  else
    let filter_location := env.RMUtil_ArgIndex "FILTER" argv
    if filter_location = -1 then (Ret.ofWrongArity, [Effect.WrongArity ctx])
    else
      let query_count : Int := (argc - 1 - filter_location) % 2 ^ 64
      let withlabels_location := env.RMUtil_ArgIndex "WITHLABELS" argv
      let parsed := env.parseLabelListFromArgs argv (filter_location + 1) query_count
      let queries := parsed.queries
      if parsed.response = env.TSDB_ERROR then
        (Ret.ofReplyGeneralError,
          [Effect.QueryPredicateList_Free queries,
           Effect.ReplyGeneralError ctx "TSDB: failed parsing labels"])
      else if env.CountPredicateType queries PredicateType.EQ
          + env.CountPredicateType queries PredicateType.LIST_MATCH = 0 then
        (Ret.ofReplyGeneralError,
          [Effect.QueryPredicateList_Free queries,
           Effect.ReplyGeneralError ctx "TSDB: please provide at least one matcher"])
      else
        let tr := [Effect.CreateCtx "ShardIDReader"]
        let rg_ctx := eng.rg_ctx
        let tr := if eng.CreateCtx_err.isSome then
            tr ++ [Effect.ReplyWithError ctx eng.CreateCtx_err]
          else tr
        let queryArg : QueryPredicates_Arg :=
          { count := queries.count, startTimestamp := 0, endTimestamp := 0,
            predicates := queries, withLabels := decide (withlabels_location > 0) }
        let tr := tr ++ [Effect.FlatMap rg_ctx "ShardMgetMapper" queryArg,
                         Effect.Collect rg_ctx, Effect.RunAsync rg_ctx]
        match eng.Run_ep with
        | none =>
          (Ret.REDISMODULE_OK,
            tr ++ [Effect.FreeFlatExecution rg_ctx,
                   Effect.ReplyWithError ctx (errAfterRun eng)])
        | some ep =>
          (Ret.REDISMODULE_OK,
            tr ++ [Effect.BlockClient ctx,
                   Effect.AddOnDoneCallback ep DoneCallback.mget_done
                     (PrivateData.blockedClient eng.bc),
                   Effect.FreeFlatExecution rg_ctx])

/-- The range-query dispatcher (`TSDB_mrange_RG`, lines 157-193).  When the parser
does not return `REDISMODULE_OK` the dispatcher returns at once and makes no call
of its own. -/
def TSDB_mrange_RG (env : Env) (eng : Engine) (argv : List String) (rev : Bool) :
    Ret × List Effect :=
  let ctx := Ctx.original
  match env.parseMRangeCommand argv with
  | none => (Ret.REDISMODULE_OK, [])
  | some args0 =>
    let args : MRangeArgs := { args0 with reverse := rev }
    let tr := [Effect.CreateCtx "ShardIDReader"]
    let rg_ctx := eng.rg_ctx
    let tr := if eng.CreateCtx_err.isSome then
        tr ++ [Effect.ReplyWithError ctx eng.CreateCtx_err]
      else tr
    let tr := tr ++ [Effect.RefIncr args.queryPredicates]
    let queryArg : QueryPredicates_Arg :=
      { count := args.queryPredicates.count, startTimestamp := args.startTimestamp,
        endTimestamp := args.endTimestamp, predicates := args.queryPredicates,
        withLabels := args.withLabels }
    let tr := tr ++ [Effect.FlatMap rg_ctx "ShardSeriesMapper" queryArg,
                     Effect.Collect rg_ctx, Effect.RunAsync rg_ctx]
    match eng.Run_ep with
    | none =>
      (Ret.REDISMODULE_OK,
        tr ++ [Effect.FreeFlatExecution rg_ctx,
               Effect.ReplyWithError ctx (errAfterRun eng)])
    | some ep =>
      let data : MRangeData := { bc := eng.bc, args := args }
      (Ret.REDISMODULE_OK,
        tr ++ [Effect.BlockClient ctx,
               Effect.AddOnDoneCallback ep DoneCallback.mrange_done
                 (PrivateData.mrangeData data),
               Effect.FreeFlatExecution rg_ctx])

/-- The index-query dispatcher (`TSDB_queryindex_RG`, lines 195-223). -/
def TSDB_queryindex_RG (eng : Engine) (queries : QueryPredicateList) : Ret × List Effect :=
  let ctx := Ctx.original
  let tr := [Effect.CreateCtx "ShardIDReader"]
  let rg_ctx := eng.rg_ctx
  let tr := if eng.CreateCtx_err.isSome then
      tr ++ [Effect.ReplyWithError ctx eng.CreateCtx_err]
    else tr
  let tr := tr ++ [Effect.RefIncr queries]
  let queryArg : QueryPredicates_Arg :=
    { count := queries.count, startTimestamp := 0, endTimestamp := 0,
      predicates := queries, withLabels := false }
  let tr := tr ++ [Effect.FlatMap rg_ctx "ShardQueryindexMapper" queryArg,
                   Effect.Collect rg_ctx, Effect.RunAsync rg_ctx]
  match eng.Run_ep with
  | none =>
    (Ret.REDISMODULE_OK,
      tr ++ [Effect.FreeFlatExecution rg_ctx,
             Effect.ReplyWithError ctx (errAfterRun eng)])
  | some ep =>
    (Ret.REDISMODULE_OK,
      tr ++ [Effect.BlockClient ctx,
             Effect.AddOnDoneCallback ep DoneCallback.mget_done
               (PrivateData.blockedClient eng.bc),
             Effect.FreeFlatExecution rg_ctx])

/-! ## Reading a trace -/

/-- The series a collected record yields: none when its tag fails the type check of
`mrange_done` (line 48), the reconstructed series otherwise. -/
def seriesOf (env : Env) (r : Record) : Option Series :=
  if r.type ≠ env.GetSeriesRecordType then none else some (env.SeriesRecord_IntoSeries r)

/-- The call `mrange_done` makes for one reconstructed series (lines 54-66). -/
def seriesEntry (data : MRangeData) (s : Series) : Effect :=
  if data.args.groupByLabel.isSome then Effect.ResultSet_AddSerie s s.keyName
  else Effect.ReplySeriesArrayPos (Ctx.threadSafe data.bc) s data.args.withLabels
    data.args.startTimestamp data.args.endTimestamp
    data.args.aggregationArgs.aggregationClass data.args.aggregationArgs.timeDelta
    data.args.count data.args.reverse

/-- The cleanup that closes `mrange_done` after the series are released
(lines 97-101). -/
def mrangeTail (gearsCtx : ExecutionPlan) (data : MRangeData) : List Effect :=
  [Effect.free_tempSeries, Effect.MRangeArgs_Free data.args, Effect.free_data,
   Effect.DropExecution gearsCtx.id, Effect.FreeThreadSafeContext (Ctx.threadSafe data.bc)]

/-- The parse call of `TSDB_mget_RG` (lines 109-117): the label parser applied
to the arguments after the `FILTER` keyword. -/
def mgetParsed (env : Env) (argv : List String) : ParseResult :=
  let argc : Int := argv.length
  let filter_location := env.RMUtil_ArgIndex "FILTER" argv
  env.parseLabelListFromArgs argv (filter_location + 1) ((argc - 1 - filter_location) % 2 ^ 64)

/-- Replies that write part of the answer: an array header, a record, a series
entry, the grouped result. -/
def isReplyWrite : Effect → Bool
  | Effect.ReplyWithArray _ _ => true
  | Effect.RecordSendReply _ _ => true
  | Effect.ReplySeriesArrayPos _ _ _ _ _ _ _ _ _ => true
  | Effect.replyResultSet _ _ _ _ _ _ _ _ => true
  | _ => false

/-- Error replies written on the connection the command arrived on. -/
def isErrorReply : Effect → Bool
  | Effect.WrongArity Ctx.original => true
  | Effect.ReplyGeneralError Ctx.original _ => true
  | Effect.ReplyWithError Ctx.original _ => true
  | _ => false

/-- The client is suspended. -/
def isSuspend : Effect → Bool
  | Effect.BlockClient _ => true
  | _ => false

/-- A completion callback is registered. -/
def isCallbackRegistration : Effect → Bool
  | Effect.AddOnDoneCallback _ _ _ => true
  | _ => false

/-- Calls into the execution engine. -/
def isEngineCall : Effect → Bool
  | Effect.CreateCtx _ => true
  | Effect.FlatMap _ _ _ => true
  | Effect.Collect _ => true
  | Effect.RunAsync _ => true
  | Effect.FreeFlatExecution _ => true
  | Effect.AddOnDoneCallback _ _ _ => true
  | _ => false

/-- The connection is resumed. -/
def isResume : Effect → Bool
  | Effect.UnblockClient _ => true
  | _ => false

/-- The thread-safe reply context is released. -/
def isFreeCtx : Effect → Bool
  | Effect.FreeThreadSafeContext _ => true
  | _ => false

/-- Releases of series or range-argument memory; the release of the grouped
result set is counted with them. -/
def isRelease : Effect → Bool
  | Effect.FreeSeries _ => true
  | Effect.MRangeArgs_Free _ => true
  | Effect.ResultSet_Free => true
  | _ => false

/-- The reducer is applied. -/
def isApplyReducer : Effect → Bool
  | Effect.ResultSet_ApplyReducer _ _ _ _ _ _ _ => true
  | _ => false

/-- The final formatting pass over the grouped result. -/
def isReplyResultSet : Effect → Bool
  | Effect.replyResultSet _ _ _ _ _ _ _ _ => true
  | _ => false

/-- A per-series entry of the ungrouped reply. -/
def isReplySeries : Effect → Bool
  | Effect.ReplySeriesArrayPos _ _ _ _ _ _ _ _ _ => true
  | _ => false

/-- A series is added to the grouped result set. -/
def isAddSerie : Effect → Bool
  | Effect.ResultSet_AddSerie _ _ => true
  | _ => false

/-- The length an effect declares when it is an array header. -/
def headerLen : Effect → Option Int
  | Effect.ReplyWithArray _ len => some len
  | _ => none

/-- The lengths declared by the array headers of a trace, in order. -/
def arrayHeaders (tr : List Effect) : List Int :=
  tr.filterMap headerLen

/-- Every effect satisfying `p` occurs at an earlier position of the trace than
every effect satisfying `q`. -/
def Precedes (p q : Effect → Bool) (tr : List Effect) : Prop :=
  ∀ (i j : Nat) (hi : i < tr.length) (hj : j < tr.length),
    p (tr.get ⟨i, hi⟩) = true → q (tr.get ⟨j, hj⟩) = true → i < j

/-! ## Sample inputs -/

/-- A keyword lookup that compares arguments exactly: the position of the first
argument equal to the keyword, `-1` when there is none. -/
def sampleArgIndex (kw : String) (argv : List String) : Int :=
  if argv.contains kw then (argv.indexOf kw : Int) else -1

/-- A predicate list with one matcher. -/
def oneMatcher : QueryPredicateList := { count := 1, ref := 1, list := [0] }

/-- Range arguments without grouping: `count = 1`, `reverse = true`. -/
def capOneArgs : MRangeArgs :=
  { startTimestamp := 10, endTimestamp := 20,
    aggregationArgs := { aggregationClass := none, timeDelta := 0 },
    withLabels := false, count := 1, queryPredicates := oneMatcher,
    groupByLabel := none, gropuByReducerOp := 0, reverse := true }

/-- Sample helpers: every parsed label is an equality matcher, the range parser
yields `capOneArgs` (with `reverse` still unset), the series tag is 1. -/
def sampleEnv : Env :=
  { RMUtil_ArgIndex := sampleArgIndex
    parseLabelListFromArgs := fun _ _ query_count =>
      { queries := { count := query_count.toNat, ref := 1,
                     list := List.range query_count.toNat },
        response := 0 }
    TSDB_ERROR := -1
    CountPredicateType := fun queries t =>
      match t with
      | PredicateType.EQ => queries.list.length
      | PredicateType.LIST_MATCH => 0
    parseMRangeCommand := fun _ => some { capOneArgs with reverse := false }
    GetSeriesRecordType := 1
    SeriesRecord_IntoSeries := fun r => { keyName := "key", body := r.payload } }

/-- An engine that accepts the plan and runs it. -/
def engineOk : Engine :=
  { rg_ctx := some 1, CreateCtx_err := none, Run_ep := some 7, Run_err := none, bc := 3 }

/-- An engine whose plan creation reports an error and whose run still returns a
handle. -/
def engineCreateFailsRunOk : Engine :=
  { rg_ctx := none, CreateCtx_err := some "no reader", Run_ep := some 7, Run_err := none,
    bc := 3 }

/-- An engine whose plan creation reports an error and whose run returns `NULL`. -/
def engineCreateFailsRunFails : Engine :=
  { rg_ctx := none, CreateCtx_err := some "no reader", Run_ep := none,
    Run_err := some "no plan", bc := 3 }

/-- A point-lookup command whose filter clause is empty. -/
def mgetNoMatcherArgv : List String := ["TS.MGET", "WITHLABELS", "FILTER"]

/-- A point-lookup command with one matcher. -/
def mgetArgv : List String := ["TS.MGET", "FILTER", "a=b"]

/-- Range arguments grouped by the label `region`. -/
def groupedArgs : MRangeArgs :=
  { capOneArgs with groupByLabel := some "region", gropuByReducerOp := 2 }

/-- Ten collected records, all carrying the series tag of `sampleEnv`. -/
def tenSeries : ExecutionPlan :=
  { id := 7, records := (List.range 10).map (fun i => { type := 1, payload := i }) }

/-- One collected record whose tag is not the series tag of `sampleEnv`. -/
def oneForeignRecord : ExecutionPlan :=
  { id := 7, records := [{ type := 0, payload := 5 }] }

/-- A series record followed by a record with another tag. -/
def mixedRecords : ExecutionPlan :=
  { id := 7, records := [{ type := 1, payload := 4 }, { type := 0, payload := 5 }] }

/-! ## Loop lemmas -/

theorem foldl_range_append {α : Type} (f : Nat → α) (n : Nat) (tr : List α) :
    (List.range n).foldl (fun tr i => tr ++ [f i]) tr = tr ++ (List.range n).map f := by
  induction n with
  | zero => simp
  | succ k ih => simp [List.range_succ, List.foldl_append, ih]

theorem map_getD_range_take {α : Type} (l : List α) (d : α) (k : Nat) (hk : k ≤ l.length) :
    (List.range k).map (fun i => l.getD i d) = l.take k := by
  induction k with
  | zero => simp
  | succ k ih =>
    have hlt : k < l.length := hk
    rw [List.range_succ, List.map_append, ih (Nat.le_of_lt hlt), List.take_succ]
    simp [List.getD, List.getElem?_eq_getElem hlt]

theorem map_getD_range {α : Type} (l : List α) (d : α) :
    (List.range l.length).map (fun i => l.getD i d) = l := by
  rw [map_getD_range_take l d l.length (Nat.le_refl _), List.take_length]

theorem mrange_loop_body_eq (env : Env) (gearsCtx : ExecutionPlan) (data : MRangeData)
    (st : MRangeLoopState) (i : Nat) :
    mrange_loop_body env gearsCtx data st i =
      match seriesOf env (RedisGears_GetRecord gearsCtx i) with
      | none => st
      | some s => { tempSeries := st.tempSeries.set i (some s),
                    trace := st.trace ++ [seriesEntry data s] } := by
  unfold mrange_loop_body seriesOf seriesEntry
  by_cases ht : (RedisGears_GetRecord gearsCtx i).type ≠ env.GetSeriesRecordType
  · simp [ht]
  · by_cases hg : data.args.groupByLabel.isSome = true <;> simp [ht, hg]

theorem mrange_loop_upto (env : Env) (gearsCtx : ExecutionPlan) (data : MRangeData)
    (tr : List Effect) (k : Nat) (hk : k ≤ gearsCtx.records.length) :
    (List.range k).foldl (mrange_loop_body env gearsCtx data)
        { tempSeries := List.replicate gearsCtx.records.length none, trace := tr } =
      { tempSeries := (gearsCtx.records.take k).map (seriesOf env)
          ++ List.replicate (gearsCtx.records.length - k) none,
        trace := tr ++ ((gearsCtx.records.take k).filterMap (seriesOf env)).map
          (seriesEntry data) } := by
  induction k with
  | zero => simp
  | succ k ih =>
    have hlt : k < gearsCtx.records.length := hk
    rw [List.range_succ, List.foldl_append, ih (Nat.le_of_lt hlt)]
    simp only [List.foldl_cons, List.foldl_nil]
    rw [mrange_loop_body_eq]
    have hget : RedisGears_GetRecord gearsCtx k = gearsCtx.records[k] := by
      simp [RedisGears_GetRecord, List.getD, List.getElem?_eq_getElem hlt]
    have hrep : List.replicate (gearsCtx.records.length - k) (none : Option Series) =
        none :: List.replicate (gearsCtx.records.length - (k + 1)) none := by
      have : gearsCtx.records.length - k = (gearsCtx.records.length - (k + 1)) + 1 := by omega
      rw [this, List.replicate_succ]
    have hlen : ((gearsCtx.records.take k).map (seriesOf env)).length = k := by
      simp [List.length_take, Nat.le_of_lt hlt]
    have htake : gearsCtx.records.take (k + 1) = gearsCtx.records.take k ++ [gearsCtx.records[k]] := by
      rw [List.take_succ, List.getElem?_eq_getElem hlt]; rfl
    rw [hget, htake, hrep]
    generalize gearsCtx.records.take k = pre at hlen
    generalize gearsCtx.records[k] = r
    generalize gearsCtx.records.length - (k + 1) = m
    cases hs : seriesOf env r with
    | none =>
      simp only [List.map_append, List.filterMap_append, List.map_cons, List.map_nil,
        List.filterMap_cons, List.filterMap_nil, hs, List.append_nil, List.append_assoc,
        List.singleton_append]
    | some s =>
      simp only [List.map_append, List.filterMap_append, List.map_cons, List.map_nil,
        List.filterMap_cons, List.filterMap_nil, hs, List.append_assoc,
        List.singleton_append]
      congr 1
      rw [List.set_append_right _ _ (by rw [hlen]), hlen, Nat.sub_self]
      rfl

theorem mrange_loop_full (env : Env) (gearsCtx : ExecutionPlan) (data : MRangeData)
    (tr : List Effect) :
    (List.range gearsCtx.records.length).foldl (mrange_loop_body env gearsCtx data)
        { tempSeries := List.replicate gearsCtx.records.length none, trace := tr } =
      { tempSeries := gearsCtx.records.map (seriesOf env),
        trace := tr ++ (gearsCtx.records.filterMap (seriesOf env)).map (seriesEntry data) } := by
  rw [mrange_loop_upto env gearsCtx data tr _ (Nat.le_refl _)]
  simp

/-- The whole trace of `mget_done`, loop unrolled. -/
theorem mget_done_eq (gearsCtx : ExecutionPlan) (bc : Nat) :
    mget_done gearsCtx bc =
      [Effect.GetThreadSafeContext bc,
       Effect.ReplyWithArray (Ctx.threadSafe bc) gearsCtx.records.length]
      ++ gearsCtx.records.map (fun r => Effect.RecordSendReply r (Ctx.threadSafe bc))
      ++ [Effect.UnblockClient bc, Effect.DropExecution gearsCtx.id,
          Effect.FreeThreadSafeContext (Ctx.threadSafe bc)] := by
  unfold mget_done
  simp only [RedisGears_GetRecordsLen]
  rw [foldl_range_append (fun i => Effect.RecordSendReply (RedisGears_GetRecord gearsCtx i)
    (Ctx.threadSafe bc))]
  have h := map_getD_range gearsCtx.records (default : Record)
  have h2 : (List.range gearsCtx.records.length).map
      (fun i => Effect.RecordSendReply (RedisGears_GetRecord gearsCtx i) (Ctx.threadSafe bc))
      = gearsCtx.records.map (fun r => Effect.RecordSendReply r (Ctx.threadSafe bc)) := by
    conv_rhs => rw [← h]
    simp [RedisGears_GetRecord, List.map_map, Function.comp]
  rw [h2]
  simp

/-- The whole trace of `mrange_done`, loops unrolled. -/
theorem mrange_done_eq (env : Env) (gearsCtx : ExecutionPlan) (data : MRangeData) :
    mrange_done env gearsCtx data =
      [Effect.GetThreadSafeContext data.bc]
      ++ (match data.args.groupByLabel with
          | some label => [Effect.ResultSet_Create, Effect.ResultSet_GroupbyLabel label]
          | none => [Effect.ReplyWithArray (Ctx.threadSafe data.bc) gearsCtx.records.length])
      ++ (gearsCtx.records.filterMap (seriesOf env)).map (seriesEntry data)
      ++ (if data.args.groupByLabel.isSome then
            [Effect.ResultSet_ApplyReducer data.args.startTimestamp data.args.endTimestamp
               data.args.aggregationArgs.aggregationClass data.args.aggregationArgs.timeDelta
               (-1) false data.args.gropuByReducerOp,
             Effect.replyResultSet (Ctx.threadSafe data.bc) data.args.withLabels
               data.args.startTimestamp data.args.endTimestamp none 0 data.args.count
               data.args.reverse,
             Effect.ResultSet_Free]
          else [])
      ++ [Effect.UnblockClient data.bc]
      ++ (gearsCtx.records.map (seriesOf env)).map Effect.FreeSeries
      ++ mrangeTail gearsCtx data := by
  unfold mrange_done
  simp only [RedisGears_GetRecordsLen]
  rw [mrange_loop_full]
  simp only []
  rw [foldl_range_append (fun i =>
    Effect.FreeSeries ((gearsCtx.records.map (seriesOf env)).getD i none))]
  have h := map_getD_range (gearsCtx.records.map (seriesOf env)) (none : Option Series)
  rw [List.length_map] at h
  have h2 : (List.range gearsCtx.records.length).map
      (fun i => Effect.FreeSeries ((gearsCtx.records.map (seriesOf env)).getD i none))
      = (gearsCtx.records.map (seriesOf env)).map Effect.FreeSeries := by
    conv_rhs => rw [← h]
    simp [List.map_map, Function.comp]
  rw [h2]
  cases hg : data.args.groupByLabel <;> simp [mrangeTail]

theorem filter_map_none {α : Type} (p : Effect → Bool) (f : α → Effect) (l : List α)
    (h : ∀ a, p (f a) = false) : (l.map f).filter p = [] := by
  induction l with
  | nil => rfl
  | cons a l ih => simp [List.filter_cons, h a, ih]

theorem filter_map_all {α : Type} (p : Effect → Bool) (f : α → Effect) (l : List α)
    (h : ∀ a, p (f a) = true) : (l.map f).filter p = l.map f := by
  induction l with
  | nil => rfl
  | cons a l ih => simp [List.filter_cons, h a, ih]

theorem filterMap_map_none {α β : Type} (g : Effect → Option β) (f : α → Effect) (l : List α)
    (h : ∀ a, g (f a) = none) : (l.map f).filterMap g = [] := by
  induction l with
  | nil => rfl
  | cons a l ih => simp [List.filterMap_cons, h a, ih]

theorem all_not_map {α : Type} (p : Effect → Bool) (f : α → Effect) (l : List α)
    (h : ∀ a, p (f a) = false) : (l.map f).all (fun x => !(p x)) = true := by
  induction l with
  | nil => rfl
  | cons a l ih => simp only [List.map_cons, List.all_cons, h a, ih]; rfl

theorem filterMap_seriesOf_of_all (env : Env) (records : List Record)
    (hall : ∀ r ∈ records, r.type = env.GetSeriesRecordType) :
    records.filterMap (seriesOf env) = records.map env.SeriesRecord_IntoSeries := by
  induction records with
  | nil => rfl
  | cons r rest ih =>
    have hr : r.type = env.GetSeriesRecordType := hall r (List.mem_cons_self r rest)
    have hrest : ∀ x ∈ rest, x.type = env.GetSeriesRecordType :=
      fun x hx => hall x (List.mem_cons_of_mem r hx)
    simp [List.filterMap_cons, seriesOf, hr, ih hrest]

/-! ## Order of effects -/

theorem precedes_of_split (p q : Effect → Bool) (A B : List Effect)
    (hA' : A.all (fun x => !(q x)) = true) (hB' : B.all (fun y => !(p y)) = true) :
    Precedes p q (A ++ B) := by
  have hA : ∀ x ∈ A, q x = false := by
    intro x hx
    have := List.all_eq_true.mp hA' x hx
    simpa using this
  have hB : ∀ y ∈ B, p y = false := by
    intro y hy
    have := List.all_eq_true.mp hB' y hy
    simpa using this
  intro i j hi hj hp hq
  simp only [List.get_eq_getElem] at hp hq
  by_contra hlt
  have hji : j ≤ i := Nat.le_of_not_lt hlt
  rcases Nat.lt_or_ge j A.length with h | h
  · rw [List.getElem_append_left h] at hq
    have := hA _ (List.getElem_mem h)
    rw [this] at hq
    cases hq
  · have hiA : A.length ≤ i := Nat.le_trans h hji
    rw [List.getElem_append_right hiA] at hp
    have hiB : i - A.length < B.length := by
      rw [List.length_append] at hi; omega
    have := hB (B[i - A.length]) (List.getElem_mem hiB)
    rw [this] at hp
    cases hp

theorem seriesEntry_not_resume (data : MRangeData) (s : Series) :
    isResume (seriesEntry data s) = false := by
  unfold seriesEntry; split <;> rfl

theorem seriesEntry_not_freeCtx (data : MRangeData) (s : Series) :
    isFreeCtx (seriesEntry data s) = false := by
  unfold seriesEntry; split <;> rfl

theorem seriesEntry_not_release (data : MRangeData) (s : Series) :
    isRelease (seriesEntry data s) = false := by
  unfold seriesEntry; split <;> rfl

/-! ## The pass-through completion handler -/

/-- Claim C2: for every list of collected records, the replies `mget_done` writes
are an array header whose length is the number of records followed by one record
reply per collected record, in collection order, and nothing else; with no
collected record the reply is the empty array. -/
theorem mget_done_reply (id bc : Nat) (records : List Record) :
    (mget_done { id := id, records := records } bc).filter isReplyWrite =
        Effect.ReplyWithArray (Ctx.threadSafe bc) records.length
          :: records.map (fun r => Effect.RecordSendReply r (Ctx.threadSafe bc))
    ∧ arrayHeaders (mget_done { id := id, records := records } bc) = [(records.length : Int)]
    ∧ ((mget_done { id := id, records := records } bc).filter
        (fun e => match e with
          | Effect.RecordSendReply _ _ => true
          | _ => false)).length = records.length
    ∧ (mget_done { id := id, records := [] } bc).filter isReplyWrite =
        [Effect.ReplyWithArray (Ctx.threadSafe bc) 0] := by
  have hmap : ∀ l : List Record,
      (l.map (fun r => Effect.RecordSendReply r (Ctx.threadSafe bc))).filter isReplyWrite
        = l.map (fun r => Effect.RecordSendReply r (Ctx.threadSafe bc)) := by
    intro l
    induction l with
    | nil => rfl
    | cons a l ih => simp [List.filter_cons, isReplyWrite, ih]
  have hhead : ∀ l : List Record,
      (l.map (fun r => Effect.RecordSendReply r (Ctx.threadSafe bc))).filterMap headerLen
        = [] := by
    intro l
    induction l with
    | nil => rfl
    | cons a l ih => simp [List.filterMap_cons, headerLen, ih]
  have hcount : ∀ l : List Record,
      ((l.map (fun r => Effect.RecordSendReply r (Ctx.threadSafe bc))).filter
        (fun e => match e with
          | Effect.RecordSendReply _ _ => true
          | _ => false)).length = l.length := by
    intro l
    induction l with
    | nil => rfl
    | cons a l ih => simp [List.filter_cons, ih]
  refine ⟨?_, ?_, ?_, ?_⟩
  · rw [mget_done_eq]
    simp only [List.filter_append, hmap]
    simp [List.filter_cons, isReplyWrite]
  · rw [mget_done_eq]
    simp only [arrayHeaders, List.filterMap_append, hhead]
    simp [List.filterMap_cons, headerLen]
  · rw [mget_done_eq]
    simp only [List.filter_append, List.length_append, hcount]
    simp [List.filter_cons]
  · rw [mget_done_eq]
    simp [List.filter_cons, isReplyWrite]

/-- Claim C9: in the trace of either completion handler, every reply-writing
effect comes before the connection is resumed, the resume comes before the
thread-safe context is released (each of the two happens exactly once), and in
`mrange_done` every reply-writing effect comes before every release of a series,
of the range arguments or of the grouped result set. -/
theorem completion_effect_order (env : Env) (id bc : Nat) (records : List Record)
    (data : MRangeData) :
    (Precedes isReplyWrite isResume (mget_done { id := id, records := records } bc)
      ∧ Precedes isResume isFreeCtx (mget_done { id := id, records := records } bc)
      ∧ (mget_done { id := id, records := records } bc).filter isResume
          = [Effect.UnblockClient bc]
      ∧ (mget_done { id := id, records := records } bc).filter isFreeCtx
          = [Effect.FreeThreadSafeContext (Ctx.threadSafe bc)])
    ∧ (Precedes isReplyWrite isResume (mrange_done env { id := id, records := records } data)
      ∧ Precedes isResume isFreeCtx (mrange_done env { id := id, records := records } data)
      ∧ (mrange_done env { id := id, records := records } data).filter isResume
          = [Effect.UnblockClient data.bc]
      ∧ (mrange_done env { id := id, records := records } data).filter isFreeCtx
          = [Effect.FreeThreadSafeContext (Ctx.threadSafe data.bc)]
      ∧ Precedes isReplyWrite isRelease
          (mrange_done env { id := id, records := records } data)) := by
  have hE1 := seriesEntry_not_resume data
  have hE2 := seriesEntry_not_freeCtx data
  have hE3 := seriesEntry_not_release data
  refine ⟨⟨?_, ?_, ?_, ?_⟩, ⟨?_, ?_, ?_, ?_, ?_⟩⟩
  · rw [mget_done_eq]
    apply precedes_of_split
    · simp [List.all_append, List.all_map, isResume]
    · simp [isReplyWrite]
  · rw [mget_done_eq]
    have : ([Effect.GetThreadSafeContext bc,
        Effect.ReplyWithArray (Ctx.threadSafe bc) records.length]
        ++ records.map (fun r => Effect.RecordSendReply r (Ctx.threadSafe bc))
        ++ [Effect.UnblockClient bc, Effect.DropExecution id,
            Effect.FreeThreadSafeContext (Ctx.threadSafe bc)])
        = ([Effect.GetThreadSafeContext bc,
        Effect.ReplyWithArray (Ctx.threadSafe bc) records.length]
        ++ records.map (fun r => Effect.RecordSendReply r (Ctx.threadSafe bc))
        ++ [Effect.UnblockClient bc, Effect.DropExecution id])
        ++ [Effect.FreeThreadSafeContext (Ctx.threadSafe bc)] := by simp
    rw [this]
    apply precedes_of_split
    · simp [List.all_append, List.all_map, isFreeCtx]
    · simp [isResume]
  · rw [mget_done_eq]
    simp only [List.filter_append]
    rw [filter_map_none isResume (fun r => Effect.RecordSendReply r (Ctx.threadSafe bc)) _
      (fun _ => rfl)]
    simp [List.filter_cons, isResume]
  · rw [mget_done_eq]
    simp only [List.filter_append]
    rw [filter_map_none isFreeCtx (fun r => Effect.RecordSendReply r (Ctx.threadSafe bc)) _
      (fun _ => rfl)]
    simp [List.filter_cons, isFreeCtx]
  · rw [mrange_done_eq]
    simp only [List.append_assoc]
    rw [← List.append_assoc, ← List.append_assoc, ← List.append_assoc]
    apply precedes_of_split
    · simp only [List.all_append, all_not_map isResume (seriesEntry data) _ hE1]
      cases hg : data.args.groupByLabel <;> rfl
    · simp only [List.all_append,
        all_not_map isReplyWrite Effect.FreeSeries _ (fun _ => rfl)]
      rfl
  · rw [mrange_done_eq]
    have : mrangeTail { id := id, records := records } data =
        [Effect.free_tempSeries, Effect.MRangeArgs_Free data.args, Effect.free_data,
          Effect.DropExecution id] ++ [Effect.FreeThreadSafeContext (Ctx.threadSafe data.bc)] :=
      rfl
    rw [this, ← List.append_assoc]
    apply precedes_of_split
    · simp only [List.all_append, all_not_map isFreeCtx (seriesEntry data) _ hE2,
        all_not_map isFreeCtx Effect.FreeSeries _ (fun _ => rfl)]
      cases hg : data.args.groupByLabel <;> rfl
    · rfl
  · rw [mrange_done_eq]
    simp only [List.filter_append]
    rw [filter_map_none isResume (seriesEntry data) _ hE1,
      filter_map_none isResume Effect.FreeSeries _ (fun _ => rfl)]
    cases hg : data.args.groupByLabel <;> simp [List.filter_cons, isResume, mrangeTail]
  · rw [mrange_done_eq]
    simp only [List.filter_append]
    rw [filter_map_none isFreeCtx (seriesEntry data) _ hE2,
      filter_map_none isFreeCtx Effect.FreeSeries _ (fun _ => rfl)]
    cases hg : data.args.groupByLabel <;> simp [List.filter_cons, isFreeCtx, mrangeTail]
  · rw [mrange_done_eq]
    cases hg : data.args.groupByLabel with
    | none =>
      simp only [Option.isSome_none, Bool.false_eq_true, if_false, List.append_nil,
        List.append_assoc]
      rw [← List.append_assoc, ← List.append_assoc]
      apply precedes_of_split
      · simp only [List.all_append, all_not_map isRelease (seriesEntry data) _ hE3]
        rfl
      · simp only [List.all_append,
          all_not_map isReplyWrite Effect.FreeSeries _ (fun _ => rfl)]
        rfl
    | some label =>
      have hsplit : ([Effect.GetThreadSafeContext data.bc]
          ++ [Effect.ResultSet_Create, Effect.ResultSet_GroupbyLabel label]
          ++ (records.filterMap (seriesOf env)).map (seriesEntry data)
          ++ (if (some label : Option String).isSome then
            [Effect.ResultSet_ApplyReducer data.args.startTimestamp data.args.endTimestamp
               data.args.aggregationArgs.aggregationClass data.args.aggregationArgs.timeDelta
               (-1) false data.args.gropuByReducerOp,
             Effect.replyResultSet (Ctx.threadSafe data.bc) data.args.withLabels
               data.args.startTimestamp data.args.endTimestamp none 0 data.args.count
               data.args.reverse,
             Effect.ResultSet_Free]
            else [])
          ++ [Effect.UnblockClient data.bc]
          ++ (records.map (seriesOf env)).map Effect.FreeSeries
          ++ mrangeTail { id := id, records := records } data)
          = ([Effect.GetThreadSafeContext data.bc, Effect.ResultSet_Create,
              Effect.ResultSet_GroupbyLabel label]
            ++ (records.filterMap (seriesOf env)).map (seriesEntry data)
            ++ [Effect.ResultSet_ApplyReducer data.args.startTimestamp data.args.endTimestamp
               data.args.aggregationArgs.aggregationClass data.args.aggregationArgs.timeDelta
               (-1) false data.args.gropuByReducerOp,
             Effect.replyResultSet (Ctx.threadSafe data.bc) data.args.withLabels
               data.args.startTimestamp data.args.endTimestamp none 0 data.args.count
               data.args.reverse])
            ++ ([Effect.ResultSet_Free, Effect.UnblockClient data.bc]
              ++ (records.map (seriesOf env)).map Effect.FreeSeries
              ++ mrangeTail { id := id, records := records } data) := by
        simp
      simp only [] at hsplit ⊢
      rw [hsplit]
      apply precedes_of_split
      · simp only [List.all_append, all_not_map isRelease (seriesEntry data) _ hE3]
        rfl
      · simp only [List.all_append,
          all_not_map isReplyWrite Effect.FreeSeries _ (fun _ => rfl)]
        rfl

/-! ## The merging completion handler -/

/-- Claim C3, evaluated where it fails: without grouping and with one collected
record whose tag is not the series tag, `mrange_done` declares an array of
length 1 although no collected record is series-typed and no per-series entry is
written. -/
theorem mrange_done_header_counts_foreign_records :
    arrayHeaders (mrange_done sampleEnv oneForeignRecord { bc := 3, args := capOneArgs })
        = [1]
    ∧ (oneForeignRecord.records.filter
        (fun r => decide (r.type = sampleEnv.GetSeriesRecordType))).length = 0
    ∧ (mrange_done sampleEnv oneForeignRecord { bc := 3, args := capOneArgs }).filter
        isReplySeries = []
    ∧ (mrange_done sampleEnv oneForeignRecord { bc := 3, args := capOneArgs }).filter
        isReplyWrite = [Effect.ReplyWithArray (Ctx.threadSafe 3) 1] := by
  decide

/-- Claim C4 as stated fails: with `count = 1`, `reverse = true` and ten collected
series records the array header of the ungrouped reply declares ten entries, which
is not at most `count`. -/
theorem mrange_done_count_does_not_cap_header :
    ¬ (∀ len ∈ arrayHeaders (mrange_done sampleEnv tenSeries { bc := 3, args := capOneArgs }),
        len ≤ capOneArgs.count) := by
  decide

/-- Claim C4, amended: without grouping and with every collected record
series-typed, the array header `mrange_done` writes declares the number of
collected series, whatever `count` is, one per-series reply follows for each of
them, and `count` and `reverse` are handed unchanged to every per-series reply. -/
theorem mrange_done_ungrouped_reply (env : Env) (id : Nat) (records : List Record)
    (data : MRangeData) (h : data.args.groupByLabel = none)
    (hall : ∀ r ∈ records, r.type = env.GetSeriesRecordType) :
    arrayHeaders (mrange_done env { id := id, records := records } data)
        = [(records.length : Int)]
    ∧ (mrange_done env { id := id, records := records } data).filter isReplyWrite
        = Effect.ReplyWithArray (Ctx.threadSafe data.bc) records.length
          :: records.map (fun r =>
              Effect.ReplySeriesArrayPos (Ctx.threadSafe data.bc)
                (env.SeriesRecord_IntoSeries r) data.args.withLabels
                data.args.startTimestamp data.args.endTimestamp
                data.args.aggregationArgs.aggregationClass
                data.args.aggregationArgs.timeDelta data.args.count data.args.reverse)
    ∧ ((mrange_done env { id := id, records := records } data).filter isReplySeries).length
        = records.length := by
  have hentry : seriesEntry data = fun s =>
      Effect.ReplySeriesArrayPos (Ctx.threadSafe data.bc) s data.args.withLabels
        data.args.startTimestamp data.args.endTimestamp
        data.args.aggregationArgs.aggregationClass
        data.args.aggregationArgs.timeDelta data.args.count data.args.reverse := by
    funext s
    simp [seriesEntry, h]
  have hser := filterMap_seriesOf_of_all env records hall
  refine ⟨?_, ?_, ?_⟩
  · rw [mrange_done_eq]
    simp only [arrayHeaders, List.filterMap_append]
    rw [filterMap_map_none headerLen (seriesEntry data) _ (by intro s; rw [hentry]; rfl),
      filterMap_map_none headerLen Effect.FreeSeries _ (fun _ => rfl)]
    simp [h, List.filterMap_cons, headerLen, mrangeTail]
  · rw [mrange_done_eq]
    simp only [List.filter_append]
    rw [filter_map_all isReplyWrite (seriesEntry data) _ (by intro s; rw [hentry]; rfl),
      filter_map_none isReplyWrite Effect.FreeSeries _ (fun _ => rfl)]
    simp [h, List.filter_cons, isReplyWrite, mrangeTail, hentry, hser, List.map_map,
      Function.comp]
  · rw [mrange_done_eq]
    simp only [List.filter_append]
    rw [filter_map_all isReplySeries (seriesEntry data) _ (by intro s; rw [hentry]; rfl),
      filter_map_none isReplySeries Effect.FreeSeries _ (fun _ => rfl)]
    simp [h, List.filter_cons, isReplySeries, mrangeTail, hser]

/-- The amended claim C4 at ten series records with `count = 1` and
`reverse = true`: the header declares ten entries and ten per-series replies are
written. -/
theorem mrange_done_ungrouped_reply_witness :
    (capOneArgs.groupByLabel = none
      ∧ ∀ r ∈ tenSeries.records, r.type = sampleEnv.GetSeriesRecordType)
    ∧ arrayHeaders (mrange_done sampleEnv tenSeries { bc := 3, args := capOneArgs }) = [10]
    ∧ ((mrange_done sampleEnv tenSeries { bc := 3, args := capOneArgs }).filter
        isReplySeries).length = 10 :=
  ⟨⟨rfl, by decide⟩,
   (mrange_done_ungrouped_reply sampleEnv 7 tenSeries.records
      { bc := 3, args := capOneArgs } rfl (by decide)).1,
   (mrange_done_ungrouped_reply sampleEnv 7 tenSeries.records
      { bc := 3, args := capOneArgs } rfl (by decide)).2.2⟩

/-- Claim C7: with a group-by label, `mrange_done` writes no array header of its
own, adds every series-typed record to the grouped result set once, in
collection order, then applies the reducer once with the time range and
aggregation of the arguments, no cap (`-1`) and `reverse = false`, then runs the
final formatting pass once with the `count` and `reverse` of the arguments. -/
theorem mrange_done_grouped (env : Env) (id : Nat) (records : List Record)
    (data : MRangeData) (label : String) (h : data.args.groupByLabel = some label) :
    mrange_done env { id := id, records := records } data =
        [Effect.GetThreadSafeContext data.bc, Effect.ResultSet_Create,
         Effect.ResultSet_GroupbyLabel label]
        ++ (records.filterMap (seriesOf env)).map
            (fun s => Effect.ResultSet_AddSerie s s.keyName)
        ++ [Effect.ResultSet_ApplyReducer data.args.startTimestamp data.args.endTimestamp
              data.args.aggregationArgs.aggregationClass data.args.aggregationArgs.timeDelta
              (-1) false data.args.gropuByReducerOp,
            Effect.replyResultSet (Ctx.threadSafe data.bc) data.args.withLabels
              data.args.startTimestamp data.args.endTimestamp none 0 data.args.count
              data.args.reverse,
            Effect.ResultSet_Free,
            Effect.UnblockClient data.bc]
        ++ (records.map (seriesOf env)).map Effect.FreeSeries
        ++ mrangeTail { id := id, records := records } data
    ∧ arrayHeaders (mrange_done env { id := id, records := records } data) = []
    ∧ (mrange_done env { id := id, records := records } data).filter isAddSerie
        = (records.filterMap (seriesOf env)).map
            (fun s => Effect.ResultSet_AddSerie s s.keyName)
    ∧ (mrange_done env { id := id, records := records } data).filter isApplyReducer
        = [Effect.ResultSet_ApplyReducer data.args.startTimestamp data.args.endTimestamp
            data.args.aggregationArgs.aggregationClass data.args.aggregationArgs.timeDelta
            (-1) false data.args.gropuByReducerOp]
    ∧ (mrange_done env { id := id, records := records } data).filter isReplyResultSet
        = [Effect.replyResultSet (Ctx.threadSafe data.bc) data.args.withLabels
            data.args.startTimestamp data.args.endTimestamp none 0 data.args.count
            data.args.reverse] := by
  have hentry : seriesEntry data = fun s => Effect.ResultSet_AddSerie s s.keyName := by
    funext s
    simp [seriesEntry, h]
  refine ⟨?_, ?_, ?_, ?_, ?_⟩
  · rw [mrange_done_eq]
    simp [h, hentry]
  · rw [mrange_done_eq]
    simp only [arrayHeaders, List.filterMap_append]
    rw [filterMap_map_none headerLen (seriesEntry data) _ (by intro s; rw [hentry]; rfl),
      filterMap_map_none headerLen Effect.FreeSeries _ (fun _ => rfl)]
    simp [h, List.filterMap_cons, headerLen, mrangeTail]
  · rw [mrange_done_eq]
    simp only [List.filter_append]
    rw [filter_map_all isAddSerie (seriesEntry data) _ (by intro s; rw [hentry]; rfl),
      filter_map_none isAddSerie Effect.FreeSeries _ (fun _ => rfl)]
    simp [h, List.filter_cons, isAddSerie, mrangeTail, hentry]
  · rw [mrange_done_eq]
    simp only [List.filter_append]
    rw [filter_map_none isApplyReducer (seriesEntry data) _ (by intro s; rw [hentry]; rfl),
      filter_map_none isApplyReducer Effect.FreeSeries _ (fun _ => rfl)]
    simp [h, List.filter_cons, isApplyReducer, mrangeTail]
  · rw [mrange_done_eq]
    simp only [List.filter_append]
    rw [filter_map_none isReplyResultSet (seriesEntry data) _ (by intro s; rw [hentry]; rfl),
      filter_map_none isReplyResultSet Effect.FreeSeries _ (fun _ => rfl)]
    simp [h, List.filter_cons, isReplyResultSet, mrangeTail]

/-- Claim C7 at a series record followed by a record with another tag, grouped by
`region`: one series is added, the reducer runs once without cap, the final pass
runs once with `count = 1` and `reverse = true`. -/
theorem mrange_done_grouped_witness :
    groupedArgs.groupByLabel = some "region"
    ∧ (mrange_done sampleEnv mixedRecords { bc := 3, args := groupedArgs }).filter
        isApplyReducer = [Effect.ResultSet_ApplyReducer 10 20 none 0 (-1) false 2]
    ∧ (mrange_done sampleEnv mixedRecords { bc := 3, args := groupedArgs }).filter
        isReplyResultSet
        = [Effect.replyResultSet (Ctx.threadSafe 3) false 10 20 none 0 1 true] :=
  ⟨rfl,
   (mrange_done_grouped sampleEnv 7 mixedRecords.records { bc := 3, args := groupedArgs }
      "region" rfl).2.2.2.1,
   (mrange_done_grouped sampleEnv 7 mixedRecords.records { bc := 3, args := groupedArgs }
      "region" rfl).2.2.2.2⟩

/-- Claim C8, evaluated where it fails: with one collected record whose tag is not
the series tag, the cleanup loop of `mrange_done` calls the series release on the
slot that record left unset. -/
theorem mrange_done_releases_unset_slot :
    mrange_done sampleEnv oneForeignRecord { bc := 3, args := capOneArgs } =
      [Effect.GetThreadSafeContext 3,
       Effect.ReplyWithArray (Ctx.threadSafe 3) 1,
       Effect.UnblockClient 3,
       Effect.FreeSeries none,
       Effect.free_tempSeries,
       Effect.MRangeArgs_Free capOneArgs,
       Effect.free_data,
       Effect.DropExecution 7,
       Effect.FreeThreadSafeContext (Ctx.threadSafe 3)] := by
  decide

/-! ## The dispatchers -/

/-- Claim C1, evaluated where it fails: when plan creation reports an error and
the run still returns a handle, each of the three dispatchers writes an error
reply on the original connection and also suspends the client and registers the
completion callback; when the run then returns `NULL`, two error replies are
written. -/
theorem dispatch_create_error_is_not_final :
    ((TSDB_mget_RG sampleEnv engineCreateFailsRunOk mgetArgv).2.filter isErrorReply
        = [Effect.ReplyWithError Ctx.original (some "no reader")]
      ∧ (TSDB_mget_RG sampleEnv engineCreateFailsRunOk mgetArgv).2.filter isSuspend
        = [Effect.BlockClient Ctx.original]
      ∧ (TSDB_mget_RG sampleEnv engineCreateFailsRunOk mgetArgv).2.filter
          isCallbackRegistration
        = [Effect.AddOnDoneCallback 7 DoneCallback.mget_done (PrivateData.blockedClient 3)])
    ∧ ((TSDB_mrange_RG sampleEnv engineCreateFailsRunOk [] true).2.filter isErrorReply
        = [Effect.ReplyWithError Ctx.original (some "no reader")]
      ∧ (TSDB_mrange_RG sampleEnv engineCreateFailsRunOk [] true).2.filter isSuspend
        = [Effect.BlockClient Ctx.original]
      ∧ ((TSDB_mrange_RG sampleEnv engineCreateFailsRunOk [] true).2.filter
          isCallbackRegistration).length = 1)
    ∧ ((TSDB_queryindex_RG engineCreateFailsRunOk oneMatcher).2.filter isErrorReply
        = [Effect.ReplyWithError Ctx.original (some "no reader")]
      ∧ (TSDB_queryindex_RG engineCreateFailsRunOk oneMatcher).2.filter isSuspend
        = [Effect.BlockClient Ctx.original]
      ∧ (TSDB_queryindex_RG engineCreateFailsRunOk oneMatcher).2.filter
          isCallbackRegistration
        = [Effect.AddOnDoneCallback 7 DoneCallback.mget_done (PrivateData.blockedClient 3)])
    ∧ ((TSDB_mget_RG sampleEnv engineCreateFailsRunFails mgetArgv).2.filter isErrorReply
        = [Effect.ReplyWithError Ctx.original (some "no reader"),
           Effect.ReplyWithError Ctx.original (some "no plan")]
      ∧ (TSDB_mrange_RG sampleEnv engineCreateFailsRunFails [] true).2.filter isErrorReply
        = [Effect.ReplyWithError Ctx.original (some "no reader"),
           Effect.ReplyWithError Ctx.original (some "no plan")]
      ∧ (TSDB_queryindex_RG engineCreateFailsRunFails oneMatcher).2.filter isErrorReply
        = [Effect.ReplyWithError Ctx.original (some "no reader"),
           Effect.ReplyWithError Ctx.original (some "no plan")]) := by
  decide

/-- Claim C5: when the point-lookup command has fewer than three arguments, or
the `FILTER` keyword is not found, or the parsed predicate list has no equality
and no list-membership predicate, `TSDB_mget_RG` writes exactly one error reply
on the original connection (wrong arity in the first two cases; otherwise the
predicate list is released and the reply is "TSDB: please provide at least one
matcher"), makes no engine call and does not suspend the client. -/
theorem mget_rejects_before_engine (env : Env) (eng : Engine) (argv : List String)
    (h : (argv.length : Int) < 3 ∨ env.RMUtil_ArgIndex "FILTER" argv = -1
      ∨ ((mgetParsed env argv).response ≠ env.TSDB_ERROR
        ∧ env.CountPredicateType (mgetParsed env argv).queries PredicateType.EQ
          + env.CountPredicateType (mgetParsed env argv).queries PredicateType.LIST_MATCH
          = 0)) :
    (TSDB_mget_RG env eng argv).2 =
        (if (argv.length : Int) < 3 ∨ env.RMUtil_ArgIndex "FILTER" argv = -1 then
          [Effect.WrongArity Ctx.original]
        else
          [Effect.QueryPredicateList_Free (mgetParsed env argv).queries,
           Effect.ReplyGeneralError Ctx.original
             "TSDB: please provide at least one matcher"])
    ∧ ((TSDB_mget_RG env eng argv).2.filter isErrorReply).length = 1
    ∧ (TSDB_mget_RG env eng argv).2.filter isEngineCall = []
    ∧ (TSDB_mget_RG env eng argv).2.filter isSuspend = []
    ∧ (TSDB_mget_RG env eng argv).2.filter isCallbackRegistration = [] := by
  have key : (TSDB_mget_RG env eng argv).2 =
        (if (argv.length : Int) < 3 ∨ env.RMUtil_ArgIndex "FILTER" argv = -1 then
          [Effect.WrongArity Ctx.original]
        else
          [Effect.QueryPredicateList_Free (mgetParsed env argv).queries,
           Effect.ReplyGeneralError Ctx.original
             "TSDB: please provide at least one matcher"]) := by
    unfold TSDB_mget_RG
    unfold mgetParsed at h ⊢
    by_cases h1 : (argv.length : Int) < 3
    · simp [h1]
    · by_cases h2 : env.RMUtil_ArgIndex "FILTER" argv = -1
      · simp [h1, h2]
      · rcases h with h | h | ⟨h3, h4⟩
        · exact absurd h h1
        · exact absurd h h2
        · simp only [h1, h2, h3, h4, if_false, if_true, or_self]
  refine ⟨key, ?_, ?_, ?_, ?_⟩ <;> rw [key] <;> split <;> rfl

/-- Claim C5 at a command whose filter clause is empty: the predicate list is
released, the matcher error is the one reply, and the engine is not called. -/
theorem mget_rejects_before_engine_witness :
    ((mgetParsed sampleEnv mgetNoMatcherArgv).response ≠ sampleEnv.TSDB_ERROR
      ∧ sampleEnv.CountPredicateType (mgetParsed sampleEnv mgetNoMatcherArgv).queries
          PredicateType.EQ
        + sampleEnv.CountPredicateType (mgetParsed sampleEnv mgetNoMatcherArgv).queries
          PredicateType.LIST_MATCH = 0)
    ∧ (TSDB_mget_RG sampleEnv engineOk mgetNoMatcherArgv).2 =
        [Effect.QueryPredicateList_Free { count := 0, ref := 1, list := [] },
         Effect.ReplyGeneralError Ctx.original "TSDB: please provide at least one matcher"]
    ∧ (TSDB_mget_RG sampleEnv engineOk mgetNoMatcherArgv).2.filter isEngineCall = [] :=
  ⟨by decide,
   (mget_rejects_before_engine sampleEnv engineOk mgetNoMatcherArgv
      (Or.inr (Or.inr (by decide)))).1.trans (by decide),
   (mget_rejects_before_engine sampleEnv engineOk mgetNoMatcherArgv
      (Or.inr (Or.inr (by decide)))).2.2.1⟩

/-- Claim C10: on a successful dispatch (plan creation reports no error and the
run returns a handle) each dispatcher creates the plan with the reader
`ShardIDReader`, adds one mapping step, adds one collection step and runs the
plan, in that order, then suspends the client and registers its completion
handler.  The bundle of the mapping step carries the predicate list and its
count, with the time range and `withLabels` of the parsed arguments for the range
query, with no time range and `withLabels` set exactly when the lookup of
`WITHLABELS` gives a position after the command name for the point lookup, and
with no time range and `withLabels = false` for the index query; the range
arguments registered with `mrange_done` carry the `reverse` parameter. -/
theorem successful_dispatch_plan (env : Env) (eng : Engine) (rangeArgv mgetArgs : List String)
    (rev : Bool) (queries : QueryPredicateList) (args : MRangeArgs) (ep : Nat)
    (hc : eng.CreateCtx_err = none) (hr : eng.Run_ep = some ep)
    (hparse : env.parseMRangeCommand rangeArgv = some args)
    (hargc : ¬ (mgetArgs.length : Int) < 3)
    (hfilter : env.RMUtil_ArgIndex "FILTER" mgetArgs ≠ -1)
    (hresp : (mgetParsed env mgetArgs).response ≠ env.TSDB_ERROR)
    (hmatch : env.CountPredicateType (mgetParsed env mgetArgs).queries PredicateType.EQ
      + env.CountPredicateType (mgetParsed env mgetArgs).queries PredicateType.LIST_MATCH
      ≠ 0) :
    (TSDB_mrange_RG env eng rangeArgv rev).2 =
        [Effect.CreateCtx "ShardIDReader",
         Effect.RefIncr args.queryPredicates,
         Effect.FlatMap eng.rg_ctx "ShardSeriesMapper"
           { count := args.queryPredicates.count, startTimestamp := args.startTimestamp,
             endTimestamp := args.endTimestamp, predicates := args.queryPredicates,
             withLabels := args.withLabels },
         Effect.Collect eng.rg_ctx,
         Effect.RunAsync eng.rg_ctx,
         Effect.BlockClient Ctx.original,
         Effect.AddOnDoneCallback ep DoneCallback.mrange_done
           (PrivateData.mrangeData { bc := eng.bc, args := { args with reverse := rev } }),
         Effect.FreeFlatExecution eng.rg_ctx]
    ∧ (TSDB_mget_RG env eng mgetArgs).2 =
        [Effect.CreateCtx "ShardIDReader",
         Effect.FlatMap eng.rg_ctx "ShardMgetMapper"
           { count := (mgetParsed env mgetArgs).queries.count, startTimestamp := 0,
             endTimestamp := 0, predicates := (mgetParsed env mgetArgs).queries,
             withLabels := decide (0 < env.RMUtil_ArgIndex "WITHLABELS" mgetArgs) },
         Effect.Collect eng.rg_ctx,
         Effect.RunAsync eng.rg_ctx,
         Effect.BlockClient Ctx.original,
         Effect.AddOnDoneCallback ep DoneCallback.mget_done (PrivateData.blockedClient eng.bc),
         Effect.FreeFlatExecution eng.rg_ctx]
    ∧ (TSDB_queryindex_RG eng queries).2 =
        [Effect.CreateCtx "ShardIDReader",
         Effect.RefIncr queries,
         Effect.FlatMap eng.rg_ctx "ShardQueryindexMapper"
           { count := queries.count, startTimestamp := 0, endTimestamp := 0,
             predicates := queries, withLabels := false },
         Effect.Collect eng.rg_ctx,
         Effect.RunAsync eng.rg_ctx,
         Effect.BlockClient Ctx.original,
         Effect.AddOnDoneCallback ep DoneCallback.mget_done (PrivateData.blockedClient eng.bc),
         Effect.FreeFlatExecution eng.rg_ctx] := by
  refine ⟨?_, ?_, ?_⟩
  · unfold TSDB_mrange_RG
    simp [hparse, hc, hr]
  · unfold TSDB_mget_RG
    unfold mgetParsed at hresp hmatch ⊢
    simp only [hargc, hfilter, hresp, hmatch, hc, hr, if_false, Option.isSome_none,
      Bool.false_eq_true]
    rfl
  · unfold TSDB_queryindex_RG
    simp [hc, hr]

/-- Claim C10 at sample commands: the point lookup `TS.MGET WITHLABELS FILTER a=b`
hands the mapper one predicate, no time range and `withLabels = true`; the range
query hands over the parsed time range and registers `reverse = true`. -/
theorem successful_dispatch_plan_witness :
    (engineOk.CreateCtx_err = none ∧ engineOk.Run_ep = some 7
      ∧ sampleEnv.parseMRangeCommand [] = some { capOneArgs with reverse := false }
      ∧ ¬ ((["TS.MGET", "WITHLABELS", "FILTER", "a=b"] : List String).length : Int) < 3
      ∧ sampleEnv.RMUtil_ArgIndex "FILTER" ["TS.MGET", "WITHLABELS", "FILTER", "a=b"] ≠ -1)
    ∧ (TSDB_mget_RG sampleEnv engineOk ["TS.MGET", "WITHLABELS", "FILTER", "a=b"]).2 =
        [Effect.CreateCtx "ShardIDReader",
         Effect.FlatMap (some 1) "ShardMgetMapper"
           { count := 1, startTimestamp := 0, endTimestamp := 0,
             predicates := { count := 1, ref := 1, list := [0] }, withLabels := true },
         Effect.Collect (some 1),
         Effect.RunAsync (some 1),
         Effect.BlockClient Ctx.original,
         Effect.AddOnDoneCallback 7 DoneCallback.mget_done (PrivateData.blockedClient 3),
         Effect.FreeFlatExecution (some 1)]
    ∧ (TSDB_mrange_RG sampleEnv engineOk [] true).2 =
        [Effect.CreateCtx "ShardIDReader",
         Effect.RefIncr oneMatcher,
         Effect.FlatMap (some 1) "ShardSeriesMapper"
           { count := 1, startTimestamp := 10, endTimestamp := 20,
             predicates := oneMatcher, withLabels := false },
         Effect.Collect (some 1),
         Effect.RunAsync (some 1),
         Effect.BlockClient Ctx.original,
         Effect.AddOnDoneCallback 7 DoneCallback.mrange_done
           (PrivateData.mrangeData { bc := 3, args := capOneArgs }),
         Effect.FreeFlatExecution (some 1)] :=
  ⟨by decide,
   (successful_dispatch_plan sampleEnv engineOk [] ["TS.MGET", "WITHLABELS", "FILTER", "a=b"]
      true oneMatcher { capOneArgs with reverse := false } 7 rfl rfl (by decide) (by decide)
      (by decide) (by decide) (by decide)).2.1.trans (by decide),
   (successful_dispatch_plan sampleEnv engineOk [] ["TS.MGET", "WITHLABELS", "FILTER", "a=b"]
      true oneMatcher { capOneArgs with reverse := false } 7 rfl rfl (by decide) (by decide)
      (by decide) (by decide) (by decide)).1.trans (by decide)⟩

end GearsCommands
